import Mathlib

/-!
Verification of the Windows plugin-registration shim
`flutter_surrealdb_engine_plugin_c_api.cpp` of the `spooky` repository.

The translation unit defines a single C-linkage entry point

  void FlutterSurrealdbEnginePluginCApiRegisterWithRegistrar(
      FlutterDesktopPluginRegistrarRef registrar) {
    flutter_surrealdb_engine::FlutterSurrealdbEnginePlugin::RegisterWithRegistrar(
        flutter::PluginRegistrarManager::GetInstance()
            ->GetRegistrar<flutter::PluginRegistrarWindows>(registrar));
  }

We embed the shim shallowly as a trace-producing function over an abstract
process state (the singleton registrar manager plus unrelated host state),
and also transcribe its body into a small statement language so that the
syntactic properties (straight-line code, no branches, no loops, no
recursion) can be stated and decided.
-/

/-- An opaque host registrar handle (`FlutterDesktopPluginRegistrarRef`).
The host contract says it is never null, but the type still has a null
inhabitant so that the behaviour of the shim on a null handle can be
stated. -/
inductive FlutterDesktopPluginRegistrarRef
  | null
  | valid (id : Nat)
  deriving DecidableEq, Repr

/-- A resolved typed registrar (`flutter::PluginRegistrarWindows`), kept
abstract: only its identity matters to the shim. -/
structure PluginRegistrarWindows where
  id : Nat
  deriving DecidableEq, Repr

/-- The platform type at which the `GetRegistrar<T>` template is
instantiated. The source instantiates it at `flutter::PluginRegistrarWindows`. -/
inductive Platform
  | windows
  | linux
  | macos
  deriving DecidableEq, Repr

/-- Observable events issued by the shim. The vocabulary also contains
events the shim could in principle issue (allocation, construction of a
fresh registrar manager) so that their absence from the shim's trace is a
contentful statement. -/
inductive Event
  | getInstance
  | newManager
  | alloc
  | getRegistrar (p : Platform) (h : FlutterDesktopPluginRegistrarRef)
  | registerWithRegistrar (r : Option PluginRegistrarWindows)
  deriving DecidableEq, Repr

/-- Modelled from the spec: the host toolkit's registrar manager, the
"registrar-manager facility capable of resolving it to a platform-specific
typed registrar". Its lookup behaviour is an arbitrary function from
handles to (possibly null) typed-registrar pointers; `flutter`'s
implementation is not part of the repository. -/
structure PluginRegistrarManager where
  registrarFor : FlutterDesktopPluginRegistrarRef → Option PluginRegistrarWindows

/-- The process-wide state visible to the shim: the singleton registrar
manager returned by `flutter::PluginRegistrarManager::GetInstance()`, plus
a field of unrelated host state used to express that the shim does not
depend on anything but the manager and its argument. -/
structure ProcessState where
  instanceManager : PluginRegistrarManager
  hostState : Nat

/-- Modelled from the spec: `flutter::PluginRegistrarManager::GetInstance()`
returns the process-wide singleton manager (the glossary's "registrar
manager" facility); the call is recorded in the trace. -/
def PluginRegistrarManager.GetInstance (st : ProcessState) :
    List Event × PluginRegistrarManager :=
  ([Event.getInstance], st.instanceManager)

/-- Modelled from the spec: the manager's `GetRegistrar<T>` lookup resolves
a generic registrar handle into a platform-specific typed registrar
instance; the call, its template instantiation and its argument are
recorded in the trace. -/
def PluginRegistrarManager.GetRegistrar (m : PluginRegistrarManager)
    (p : Platform) (h : FlutterDesktopPluginRegistrarRef) :
    List Event × Option PluginRegistrarWindows :=
  ([Event.getRegistrar p h], m.registrarFor h)

/-- Modelled from the spec: the plugin class's static registration
operation (`FlutterSurrealdbEnginePlugin::RegisterWithRegistrar`), whose
definition is not among the provided sources; per the spec its internal
behaviour is out of scope, so it is modelled as the event of being called
with its argument. -/
def FlutterSurrealdbEnginePlugin.RegisterWithRegistrar
    (r : Option PluginRegistrarWindows) : List Event × Unit :=
  ([Event.registerWithRegistrar r], ())

/-- Shallow embedding of the entry point
`FlutterSurrealdbEnginePluginCApiRegisterWithRegistrar`: it resolves the
typed registrar through the singleton manager and delegates to the
plugin's registration operation. It returns the (unchanged) process
state, the trace of calls it issued, and its (void) result. -/
def FlutterSurrealdbEnginePluginCApiRegisterWithRegistrar
    (st : ProcessState) (registrar : FlutterDesktopPluginRegistrarRef) :
    ProcessState × List Event × Unit :=
  let (t1, mgr) := PluginRegistrarManager.GetInstance st
  let (t2, reg) := mgr.GetRegistrar Platform.windows registrar
  let (t3, u) := FlutterSurrealdbEnginePlugin.RegisterWithRegistrar reg
  (st, t1 ++ t2 ++ t3, u)

/-- The trace of calls issued by one invocation of the entry point. -/
def shimTrace (st : ProcessState) (h : FlutterDesktopPluginRegistrarRef) :
    List Event :=
  (FlutterSurrealdbEnginePluginCApiRegisterWithRegistrar st h).2.1

/-- The manager instance through which an invocation of the entry point
performs its lookup: the result of its `GetInstance()` call. -/
def usedManager (st : ProcessState)
    (_h : FlutterDesktopPluginRegistrarRef) : PluginRegistrarManager :=
  (PluginRegistrarManager.GetInstance st).2

/-- Arguments of the `GetRegistrar` lookups occurring in a trace. -/
def getRegistrarArgs (tr : List Event) :
    List FlutterDesktopPluginRegistrarRef :=
  tr.filterMap fun e =>
    match e with
    | Event.getRegistrar _ h => some h
    | _ => none

/-- Template instantiations of the `GetRegistrar` lookups in a trace. -/
def getRegistrarPlatforms (tr : List Event) : List Platform :=
  tr.filterMap fun e =>
    match e with
    | Event.getRegistrar p _ => some p
    | _ => none

/-- Arguments of the plugin-registration calls occurring in a trace. -/
def registerArgs (tr : List Event) : List (Option PluginRegistrarWindows) :=
  tr.filterMap fun e =>
    match e with
    | Event.registerWithRegistrar r => some r
    | _ => none

/-- Whether an event is a `GetInstance` call. -/
def Event.isGetInstance : Event → Bool
  | Event.getInstance => true
  | _ => false

/-- Number of `GetInstance` calls occurring in a trace. -/
def countGetInstance (tr : List Event) : Nat :=
  (tr.filter Event.isGetInstance).length

/-- Whether an event is an allocation. -/
def Event.isAlloc : Event → Bool
  | Event.alloc => true
  | _ => false

/-- Whether an event is the construction of a fresh registrar manager. -/
def Event.isNewManager : Event → Bool
  | Event.newManager => true
  | _ => false

/-- Expressions of the small statement language into which the body of the
entry point is transcribed. Calls carry the callee they name in the
source. -/
inductive CExpr
  | paramRegistrar
  | callGetInstance
  | callGetRegistrar (p : Platform) (mgr arg : CExpr)
  | callRegisterWithRegistrar (arg : CExpr)
  deriving DecidableEq, Repr

/-- Statements of the small statement language. Besides expression
statements and `return;`, it has conditionals and loops, so that the
absence of branches and loops from the transcribed body is a contentful
statement. -/
inductive CStmt
  | exprStmt (e : CExpr)
  | iteStmt (c : CExpr) (thenB elseB : List CStmt)
  | whileStmt (c : CExpr) (body : List CStmt)
  | returnVoid

/-- The body of `FlutterSurrealdbEnginePluginCApiRegisterWithRegistrar`,
transcribed statement by statement from the source: a single expression
statement calling the plugin's registration operation on the result of the
singleton manager's `GetRegistrar<flutter::PluginRegistrarWindows>`
lookup applied to the `registrar` parameter. -/
def entryPointBody : List CStmt :=
  [CStmt.exprStmt
    (CExpr.callRegisterWithRegistrar
      (CExpr.callGetRegistrar Platform.windows
        CExpr.callGetInstance
        CExpr.paramRegistrar))]

/-- Runtime values of the small statement language. -/
inductive Value
  | unitV
  | refV (h : FlutterDesktopPluginRegistrarRef)
  | managerV (m : PluginRegistrarManager)
  | ptrV (r : Option PluginRegistrarWindows)

/-- Truth value of a runtime value when used as a condition, in the C
sense: a pointer or handle is true when non-null; other values cannot be
conditions. -/
def Value.truthy : Value → Option Bool
  | Value.ptrV r => some r.isSome
  | Value.refV h => some (h ≠ FlutterDesktopPluginRegistrarRef.null)
  | _ => none

/-- Evaluation of an expression of the small statement language: the trace
of calls it issues and its value, or `none` when it is ill-typed. -/
def evalExpr (st : ProcessState)
    (registrar : FlutterDesktopPluginRegistrarRef) :
    CExpr → Option (List Event × Value)
  | CExpr.paramRegistrar => some ([], Value.refV registrar)
  | CExpr.callGetInstance =>
      let (t, m) := PluginRegistrarManager.GetInstance st
      some (t, Value.managerV m)
  | CExpr.callGetRegistrar p me ae => do
      let (t1, mv) ← evalExpr st registrar me
      let (t2, av) ← evalExpr st registrar ae
      match mv, av with
      | Value.managerV m, Value.refV h =>
          let (t3, r) := m.GetRegistrar p h
          some (t1 ++ t2 ++ t3, Value.ptrV r)
      | _, _ => none
  | CExpr.callRegisterWithRegistrar ae => do
      let (t1, av) ← evalExpr st registrar ae
      match av with
      | Value.ptrV r =>
          let (t2, _) := FlutterSurrealdbEnginePlugin.RegisterWithRegistrar r
          some (t1 ++ t2, Value.unitV)
      | _ => none

/-- Fuel-bounded execution of a statement list: the trace of calls it
issues, or `none` when it is ill-typed or the fuel runs out. Reaching
`return;` or the end of the list terminates execution normally. -/
def execStmts (st : ProcessState)
    (registrar : FlutterDesktopPluginRegistrarRef) :
    Nat → List CStmt → Option (List Event)
  | _, [] => some []
  | 0, _ :: _ => none
  | fuel + 1, s :: rest =>
    match s with
    | CStmt.exprStmt e => do
        let (t, _) ← evalExpr st registrar e
        let t2 ← execStmts st registrar fuel rest
        some (t ++ t2)
    | CStmt.returnVoid => some []
    | CStmt.iteStmt c thenB elseB => do
        let (t, cv) ← evalExpr st registrar c
        let b ← cv.truthy
        let t1 ← execStmts st registrar fuel (if b then thenB else elseB)
        let t2 ← execStmts st registrar fuel rest
        some (t ++ t1 ++ t2)
    | CStmt.whileStmt c b => do
        let (t, cv) ← evalExpr st registrar c
        let bb ← cv.truthy
        if bb then do
          let t1 ← execStmts st registrar fuel b
          let t2 ← execStmts st registrar fuel (CStmt.whileStmt c b :: rest)
          some (t ++ t1 ++ t2)
        else do
          let t2 ← execStmts st registrar fuel rest
          some (t ++ t2)

mutual

/-- Whether a statement contains a loop. -/
def CStmt.hasLoop : CStmt → Bool
  | CStmt.whileStmt _ _ => true
  | CStmt.iteStmt _ thenB elseB => stmtsHaveLoop thenB || stmtsHaveLoop elseB
  | _ => false

/-- Whether a statement list contains a loop. -/
def stmtsHaveLoop : List CStmt → Bool
  | [] => false
  | s :: rest => s.hasLoop || stmtsHaveLoop rest

end

mutual

/-- Whether a statement contains a conditional branch. -/
def CStmt.hasBranch : CStmt → Bool
  | CStmt.iteStmt _ _ _ => true
  | CStmt.whileStmt _ b => stmtsHaveBranch b
  | _ => false

/-- Whether a statement list contains a conditional branch. -/
def stmtsHaveBranch : List CStmt → Bool
  | [] => false
  | s :: rest => s.hasBranch || stmtsHaveBranch rest

end

/-- The callees named by an expression, in evaluation order. -/
def CExpr.callees : CExpr → List String
  | CExpr.paramRegistrar => []
  | CExpr.callGetInstance => ["flutter::PluginRegistrarManager::GetInstance"]
  | CExpr.callGetRegistrar _ me ae =>
      me.callees ++ ae.callees ++
        ["flutter::PluginRegistrarManager::GetRegistrar"]
  | CExpr.callRegisterWithRegistrar ae =>
      ae.callees ++
        ["flutter_surrealdb_engine::FlutterSurrealdbEnginePlugin::RegisterWithRegistrar"]

mutual

/-- The callees named by a statement. -/
def CStmt.callees : CStmt → List String
  | CStmt.exprStmt e => e.callees
  | CStmt.iteStmt c thenB elseB =>
      c.callees ++ stmtsCallees thenB ++ stmtsCallees elseB
  | CStmt.whileStmt c b => c.callees ++ stmtsCallees b
  | CStmt.returnVoid => []

/-- The callees named by a statement list. -/
def stmtsCallees : List CStmt → List String
  | [] => []
  | s :: rest => s.callees ++ stmtsCallees rest

end

/-- C types occurring in the exported signature of the translation unit. -/
inductive CType
  | voidT
  | registrarRefT
  deriving DecidableEq, Repr

/-- An externally callable function defined by the translation unit: its
exported name, parameter types, return type, whether it has C linkage, and
its body in the small statement language. -/
structure ExportedFunction where
  name : String
  params : List CType
  ret : CType
  externC : Bool
  body : List CStmt

/-- The externally callable functions defined by the translation unit.
The source defines exactly one,
`FlutterSurrealdbEnginePluginCApiRegisterWithRegistrar`, taking one
`FlutterDesktopPluginRegistrarRef` and returning `void`; its C linkage is
modelled from the spec ("matching the host desktop plugin loader's
required C-linkage registration signature"), the declaring header not
being among the provided sources. -/
def moduleExports : List ExportedFunction :=
  [{ name := "FlutterSurrealdbEnginePluginCApiRegisterWithRegistrar",
     params := [CType.registrarRefT],
     ret := CType.voidT,
     externC := true,
     body := entryPointBody }]

/-- A registrar manager that resolves every handle, as the host toolkit's
manager does per the host contract; used to instantiate theorems at
concrete inputs. -/
def wMgr : PluginRegistrarManager :=
  ⟨fun _ => some ⟨0⟩⟩

/-- A concrete process state holding `wMgr` as the singleton manager. -/
def wSt : ProcessState := ⟨wMgr, 0⟩

/-- A concrete process state agreeing with `wSt` on the manager but
differing in the unrelated host state. -/
def wSt2 : ProcessState := ⟨wMgr, 1⟩

/-- C1: for every host registrar reference, the entry point performs
exactly one registrar-manager lookup, applied to that same handle, and
exactly one delegated call to the plugin's registration operation, whose
argument is exactly the result of that lookup, and nothing else: its trace
is exactly the composition of the `GetInstance`, `GetRegistrar` and
`RegisterWithRegistrar` calls, the lookup arguments are `[h]` and the
registration arguments are exactly the lookup's result. -/
theorem C1_entry_point_is_minimal_adapter (st : ProcessState)
    (h : FlutterDesktopPluginRegistrarRef) :
    shimTrace st h =
      (PluginRegistrarManager.GetInstance st).1 ++
      ((PluginRegistrarManager.GetInstance st).2.GetRegistrar
        Platform.windows h).1 ++
      (FlutterSurrealdbEnginePlugin.RegisterWithRegistrar
        ((PluginRegistrarManager.GetInstance st).2.GetRegistrar
          Platform.windows h).2).1 ∧
    getRegistrarArgs (shimTrace st h) = [h] ∧
    registerArgs (shimTrace st h) = [st.instanceManager.registrarFor h] := by
  exact ⟨rfl, rfl, rfl⟩

/-- C2: for every valid (non-null) registrar reference, given that the
host's registrar manager resolves every handle to a non-null typed
registrar, every typed registrar the entry point passes to the plugin's
registration operation is non-null. -/
theorem C2_resolved_registrar_nonnull (st : ProcessState)
    (h : FlutterDesktopPluginRegistrarRef)
    (hmgr : ∀ r, (st.instanceManager.registrarFor r).isSome = true)
    (hvalid : h ≠ FlutterDesktopPluginRegistrarRef.null) :
    (registerArgs (shimTrace st h)).all Option.isSome = true := by
  have hargs : registerArgs (shimTrace st h) =
      [st.instanceManager.registrarFor h] := rfl
  rw [hargs]
  simp [hmgr h]

/-- Witness for C2 at a concrete state and handle. -/
theorem C2_resolved_registrar_nonnull_witness :
    (FlutterDesktopPluginRegistrarRef.valid 0 ≠
      FlutterDesktopPluginRegistrarRef.null) ∧
    (registerArgs (shimTrace wSt
      (FlutterDesktopPluginRegistrarRef.valid 0))).all Option.isSome = true :=
  ⟨by decide,
   C2_resolved_registrar_nonnull wSt (FlutterDesktopPluginRegistrarRef.valid 0)
     (fun _ => rfl) (by decide)⟩

/-- C3: the entry point validates nothing and surfaces no error of its
own: for every handle, a null one included, its transcribed body contains
no conditional branch, executes successfully (its semantics is `some`, the
shim's trace), and the handle is forwarded unchanged as the one lookup
argument. -/
theorem C3_no_validation_no_own_errors (st : ProcessState)
    (h : FlutterDesktopPluginRegistrarRef) :
    stmtsHaveBranch entryPointBody = false ∧
    execStmts st h 1 entryPointBody = some (shimTrace st h) ∧
    getRegistrarArgs (shimTrace st h) = [h] := by
  exact ⟨rfl, rfl, rfl⟩

/-- C4: the translation unit exposes exactly one externally callable
function; it takes a single registrar reference as its only parameter,
returns void, and has C linkage. -/
theorem C4_single_c_linkage_entry_point :
    moduleExports.length = 1 ∧
    moduleExports.map ExportedFunction.name =
      ["FlutterSurrealdbEnginePluginCApiRegisterWithRegistrar"] ∧
    moduleExports.map ExportedFunction.params = [[CType.registrarRefT]] ∧
    moduleExports.map ExportedFunction.ret = [CType.voidT] ∧
    moduleExports.map ExportedFunction.externC = [true] := by
  exact ⟨rfl, rfl, rfl, rfl, rfl⟩

/-- C5: for every input, the entry point is straight-line, synchronous and
terminating: its transcribed body contains no loop and no branch, names no
call to itself (no recursion), its fuel-bounded execution already succeeds
with fuel 1 and yields the shim's trace, and the last event of that trace
is the delegated registration call, after which control returns. -/
theorem C5_straight_line_terminating (st : ProcessState)
    (h : FlutterDesktopPluginRegistrarRef) :
    stmtsHaveLoop entryPointBody = false ∧
    "FlutterSurrealdbEnginePluginCApiRegisterWithRegistrar" ∉
      stmtsCallees entryPointBody ∧
    execStmts st h 1 entryPointBody = some (shimTrace st h) ∧
    (shimTrace st h).getLast? =
      some (Event.registerWithRegistrar (st.instanceManager.registrarFor h)) := by
  exact ⟨rfl, by decide, rfl, rfl⟩

/-- C6: the entry point allocates nothing and retains nothing: its trace
contains no allocation event, and the process state it returns is exactly
the state it was given, so no state introduced by the shim survives the
call. -/
theorem C6_no_alloc_no_retention (st : ProcessState)
    (h : FlutterDesktopPluginRegistrarRef) :
    (FlutterSurrealdbEnginePluginCApiRegisterWithRegistrar st h).1 = st ∧
    (shimTrace st h).filter Event.isAlloc = [] := by
  exact ⟨rfl, rfl⟩

/-- C7: the entry point resolves the typed registrar exclusively through
the process-wide singleton manager: its trace holds exactly one
`GetInstance` call and no construction of a fresh manager, the manager it
uses is the process's singleton instance, and any two invocations in the
same process use the same manager. -/
theorem C7_singleton_manager (st : ProcessState)
    (h : FlutterDesktopPluginRegistrarRef) :
    countGetInstance (shimTrace st h) = 1 ∧
    (shimTrace st h).filter Event.isNewManager = [] ∧
    usedManager st h = st.instanceManager ∧
    ∀ h2, usedManager st h = usedManager st h2 := by
  exact ⟨rfl, rfl, rfl, fun _ => rfl⟩

/-- C8: the typed registrar handed to the plugin's registration operation
is resolved at the Windows registrar type: the one `GetRegistrar` lookup
in the trace is instantiated at `flutter::PluginRegistrarWindows`. -/
theorem C8_windows_registrar_type (st : ProcessState)
    (h : FlutterDesktopPluginRegistrarRef) :
    getRegistrarPlatforms (shimTrace st h) = [Platform.windows] := by
  exact rfl

/-- C9: the entry point is deterministic and introduces no nondeterminism
of its own: two invocations with equal handles whose registrar managers
behave identically, whatever the rest of the process state, issue the
identical trace of calls with identical arguments and produce the
identical (void) result. -/
theorem C9_deterministic (st1 st2 : ProcessState)
    (h : FlutterDesktopPluginRegistrarRef)
    (hm : st1.instanceManager = st2.instanceManager) :
    (FlutterSurrealdbEnginePluginCApiRegisterWithRegistrar st1 h).2 =
      (FlutterSurrealdbEnginePluginCApiRegisterWithRegistrar st2 h).2 := by
  simp only [FlutterSurrealdbEnginePluginCApiRegisterWithRegistrar,
    PluginRegistrarManager.GetInstance, PluginRegistrarManager.GetRegistrar,
    FlutterSurrealdbEnginePlugin.RegisterWithRegistrar, hm]

/-- Witness for C9 at two concrete states differing only in host state. -/
theorem C9_deterministic_witness :
    wSt.instanceManager = wSt2.instanceManager ∧
    (FlutterSurrealdbEnginePluginCApiRegisterWithRegistrar wSt
      (FlutterDesktopPluginRegistrarRef.valid 7)).2 =
    (FlutterSurrealdbEnginePluginCApiRegisterWithRegistrar wSt2
      (FlutterDesktopPluginRegistrarRef.valid 7)).2 :=
  ⟨rfl,
   C9_deterministic wSt wSt2 (FlutterDesktopPluginRegistrarRef.valid 7) rfl⟩
